import Mathlib

/-!
Shallow embedding of the rust-nes 6502 CPU core (src/cpu.rs, src/instructions.rs,
src/memory.rs, src/lib.rs) and verification of the specification claims about it.

Conventions of the embedding:
* Machine bytes and words are represented as Nat with explicit reductions
  modulo 256 (u8) and 65536 (u16).  Rust wrapping operations (wrapping_add,
  wrapping_sub, the shift operators, and plain arithmetic under the release
  profile, which the spec fixes as two's-complement wrap) are modelled by the
  helpers wadd8, wsub8, wadd16 and wrap8 below.
* Memory is a total function from addresses to byte values; the u8 invariant
  of the Rust byte array is encoded by reducing modulo 256 at every read and
  write, and the u16 address space by reducing addresses modulo 65536.
* An explicit Rust "panic" (an abort that happens in every build profile) is
  modelled by returning Option.none; functions that cannot abort on the
  modelled path return plain values.
-/

namespace RustNes

/-- Addressing modes of the 6502 core, from src/instructions.rs. -/
inductive AddressingMode where
  | Accumulator
  | Absolute
  | AbsoluteX
  | AbsoluteY
  | Immediate
  | Implied
  | Indirect
  | XIndirect
  | YIndirect
  | Relative
  | ZeroPage
  | ZeroPageX
  | ZeroPageY
deriving DecidableEq, Repr

/-- Operations of the 6502 core, from src/instructions.rs. -/
inductive Instructions where
  | SetInterruptDisable
  | ClearInterruptDisable
  | SetDecimalMode
  | ClearDecimalMode
  | ClearOverflow
  | SetCarry
  | ClearCarry
  | LoadAccumulator
  | StoreAccumulator
  | LoadX
  | LoadY
  | StoreX
  | StoreY
  | MoveXToStackPointer
  | MoveStackPointerToX
  | EORAccumulator
  | ORAccumulator
  | ANDAccumulator
  | CompareAccumulator
  | CompareX
  | CompareY
  | BranchOnCarrySet
  | BranchOnCarryClear
  | BranchOnResultZero
  | BranchOnResultMinus
  | BranchOnResultNotZero
  | BranchOnResultPlus
  | BranchOnOverflowClear
  | BranchOnOverflowSet
  | DecrementX
  | DecrementY
  | DecrementMem
  | IncrementX
  | IncrementY
  | IncrementMem
  | JumpSubroutine
  | Jump
  | PullAccumulatorFromStack
  | PullProcessorStatusFromStack
  | PushAccumulatorOnStack
  | PushProcessorStatusOnStack
  | ShiftOneRight
  | ShiftOneLeft
  | RotateOneLeft
  | RotateOneRight
  | ReturnFromInterrupt
  | ReturnFromSubroutine
  | TransferAccumulatorToY
  | TransferAccumulatorToX
  | TransferXToAccumulator
  | TransferYToAccumulator
  | TransferStackPointerToX
  | AddMemToAccumulatorWithCarry
  | TestBitsAccumulator
  | SubtractAccumulatorWithBorrow
  | MissingOperation
  | NoOperation
  | JAM
  | ForceBreak
  | ISC
  | SLO
  | SAX
  | DCP
  | ARR
  | TAS
  | ANE
  | LAX
  | RLA
  | ANC
  | SRE
  | RRA
  | ALR
  | USBC
  | LAS
  | LXA
  | SHA
  | SBX
  | SHY
  | SHX
deriving DecidableEq, Repr

/-- The instruction currently latched in the CPU, from src/instructions.rs. -/
structure CurrentInstruction where
  op : Instructions
  mode : AddressingMode
deriving DecidableEq, Repr

/-- Processor status flags, from src/cpu.rs (struct CPUFlags). -/
structure CPUFlags where
  carry : Bool
  zero : Bool
  interrupt_disable : Bool
  decimal : Bool
  overflow : Bool
  negative : Bool
deriving DecidableEq, Repr

/-- Register file, from src/cpu.rs (struct Registers).  pc is a u16, the
others are u8, modelled as Nat kept below the corresponding bound. -/
structure Registers where
  pc : Nat
  sp : Nat
  accumulator : Nat
  idx : Nat
  idy : Nat
  flags : CPUFlags
deriving DecidableEq, Repr

/-- CPU state, from src/cpu.rs (struct NesCpu).  Memory is a total function
from addresses to stored values. -/
structure NesCpu where
  memory : Nat → Nat
  reg : Registers
  current : CurrentInstruction

/-- Reduction to a u8 value. -/
def wrap8 (n : Nat) : Nat := n % 256

/-- u8 wrapping addition (u8::wrapping_add, or plain + under wrap semantics). -/
def wadd8 (a b : Nat) : Nat := (a + b) % 256

/-- u8 wrapping subtraction (u8::wrapping_sub, or plain - under wrap
semantics). -/
def wsub8 (a b : Nat) : Nat := (a % 256 + 256 - b % 256) % 256

/-- u16 wrapping addition (u16::wrapping_add, or plain + under wrap
semantics). -/
def wadd16 (a b : Nat) : Nat := (a + b) % 65536

/-- u8::overflowing_add: the wrapped sum together with the carry-out bit. -/
def overflowing_add8 (a b : Nat) : Nat × Bool :=
  ((a % 256 + b % 256) % 256, Nat.ble 256 (a % 256 + b % 256))

/-- combine_bytes_to_u16 from src/lib.rs: (high << 8) | low. -/
def combine_bytes_to_u16 (high low : Nat) : Nat :=
  (high <<< 8) ||| low

/-- Memory::read_byte from src/memory.rs.  Reads from the PPU register range
0x2000..=0x2007 and the IO port range 0x4000..=0x401F return 0; all other
addresses index the backing byte array. -/
def read_byte (m : Nat → Nat) (address : Nat) : Nat :=
  if 0x2000 ≤ address ∧ address ≤ 0x2007 then 0
  else if 0x4000 ≤ address ∧ address ≤ 0x401F then 0
  else m (address % 65536) % 256

/-- Memory::write_byte from src/memory.rs.  Writes to the PPU register range
and the IO port range are dropped; all other addresses update the backing
byte array. -/
def write_byte (m : Nat → Nat) (address byte : Nat) : Nat → Nat :=
  if 0x2000 ≤ address ∧ address ≤ 0x2007 then m
  else if 0x4000 ≤ address ∧ address ≤ 0x401F then m
  else fun a => if a = address % 65536 then byte % 256 else m a

/-- Memory::read_word from src/memory.rs: little-endian 16-bit read indexing
the backing array directly (no IO-range handling), via combine_bytes_to_u16
applied to bytes[address + 1] and bytes[address]. -/
def read_word (m : Nat → Nat) (address : Nat) : Nat :=
  combine_bytes_to_u16 (m (wadd16 address 1) % 256) (m (address % 65536) % 256)

/-- AddressingMode::get_increment from src/instructions.rs. -/
def AddressingMode.get_increment : AddressingMode → Nat
  | .Implied | .Accumulator => 1
  | .Immediate | .XIndirect | .YIndirect
  | .ZeroPage | .ZeroPageX | .ZeroPageY | .Relative => 2
  | .Absolute | .AbsoluteX | .AbsoluteY | .Indirect => 3

/-- CPUFlags::new from src/cpu.rs: only interrupt_disable starts set. -/
def CPUFlags.new : CPUFlags :=
  { carry := false
    zero := false
    interrupt_disable := true
    decimal := false
    overflow := false
    negative := false }

/-- Registers::new from src/cpu.rs: pc = 0, sp = 0xFF, other registers 0. -/
def Registers.new : Registers :=
  { pc := 0
    sp := 0xFF
    accumulator := 0
    idx := 0
    idy := 0
    flags := CPUFlags.new }

/-- NesCpu::next_byte: the byte following the current instruction. -/
def next_byte (cpu : NesCpu) : Nat :=
  read_byte cpu.memory (wadd16 cpu.reg.pc 1)

/-- NesCpu::next_word: the word following the current instruction. -/
def next_word (cpu : NesCpu) : Nat :=
  read_word cpu.memory (wadd16 cpu.reg.pc 1)

/-- NesCpu::next: advance pc by the increment of the current addressing
mode. -/
def next (cpu : NesCpu) : NesCpu :=
  { cpu with reg := { cpu.reg with
      pc := wadd16 cpu.reg.pc cpu.current.mode.get_increment } }

/-- NesCpu::jump: set pc to the given address. -/
def jump (cpu : NesCpu) (address : Nat) : NesCpu :=
  { cpu with reg := { cpu.reg with pc := address } }

/-- NesCpu::push_stack from src/cpu.rs: write the byte at 0x100 + sp, then
decrement sp (u8 arithmetic, wrapping under the modelled semantics). -/
def push_stack (cpu : NesCpu) (data : Nat) : NesCpu :=
  let address := 0x100 + cpu.reg.sp
  { cpu with
    memory := write_byte cpu.memory address data
    reg := { cpu.reg with sp := wsub8 cpu.reg.sp 1 } }

/-- NesCpu::push_stack_u16 from src/cpu.rs: push the high byte, then the low
byte, of the little-endian pair. -/
def push_stack_u16 (cpu : NesCpu) (data : Nat) : NesCpu :=
  let lo := data % 256
  let hi := data / 256 % 256
  push_stack (push_stack cpu hi) lo

/-- NesCpu::pop_stack from src/cpu.rs.  When sp = 0xFF the source executes
an explicit panic (modelled as none); otherwise sp is incremented and the
byte at 0x100 + old sp + 1 is returned with the new state. -/
def pop_stack (cpu : NesCpu) : Option (Nat × NesCpu) :=
  if cpu.reg.sp = 0xFF then none
  else
    let address := 0x100 + cpu.reg.sp
    let cpu2 : NesCpu := { cpu with reg := { cpu.reg with sp := cpu.reg.sp + 1 } }
    let res := read_byte cpu2.memory (address + 1)
    some (res, cpu2)

/-- NesCpu::get_indirect_x from src/cpu.rs: zero-page pointer fetch indexed
by x, with wrapping byte additions. -/
def get_indirect_x (cpu : NesCpu) : Nat :=
  let address := next_byte cpu
  let low := read_byte cpu.memory (wadd8 address cpu.reg.idx)
  let high := read_byte cpu.memory (wadd8 address (wadd8 cpu.reg.idx 1))
  (high <<< 8) ||| low

/-- NesCpu::get_indirect_y from src/cpu.rs: zero-page pointer fetch indexed
by y, with wrapping byte additions. -/
def get_indirect_y (cpu : NesCpu) : Nat :=
  let address := next_byte cpu
  let low := read_byte cpu.memory (wadd8 address cpu.reg.idy)
  let high := read_byte cpu.memory (wadd8 address (wadd8 cpu.reg.idy 1))
  (high <<< 8) ||| low

set_option maxHeartbeats 2000000 in
/-- NesCpu::decode_instruction from src/instructions.rs: total map from an
opcode byte to an operation and addressing mode; unlisted bytes decode to
MissingOperation. -/
def decode_instruction (opcode : Nat) : Instructions × AddressingMode :=
  match opcode with
  | 0x78 => (.SetInterruptDisable, .Implied)
  | 0xD8 => (.ClearDecimalMode, .Implied)
  | 0xA9 => (.LoadAccumulator, .Immediate)
  | 0x8D => (.StoreAccumulator, .Absolute)
  | 0xA2 => (.LoadX, .Immediate)
  | 0x9A => (.MoveXToStackPointer, .Implied)
  | 0xAD => (.LoadAccumulator, .Absolute)
  | 0x10 => (.BranchOnResultPlus, .Relative)
  | 0xA0 => (.LoadY, .Immediate)
  | 0xBD => (.LoadAccumulator, .AbsoluteX)
  | 0xC9 => (.CompareAccumulator, .Immediate)
  | 0xB0 => (.BranchOnCarrySet, .Relative)
  | 0xCA => (.DecrementX, .Implied)
  | 0x88 => (.DecrementY, .Implied)
  | 0xD0 => (.BranchOnResultNotZero, .Relative)
  | 0x20 => (.JumpSubroutine, .Absolute)
  | 0xEE => (.IncrementMem, .Absolute)
  | 0x09 => (.ORAccumulator, .Immediate)
  | 0x4C => (.Jump, .Absolute)
  | 0x6C => (.Jump, .Indirect)
  | 0x01 => (.ORAccumulator, .XIndirect)
  | 0x11 => (.ORAccumulator, .YIndirect)
  | 0xC8 => (.IncrementY, .Implied)
  | 0xEC => (.CompareX, .Absolute)
  | 0x41 => (.EORAccumulator, .XIndirect)
  | 0x68 => (.PullAccumulatorFromStack, .Implied)
  | 0xDE => (.DecrementMem, .AbsoluteX)
  | 0x8E => (.StoreX, .Absolute)
  | 0x8C => (.StoreY, .Absolute)
  | 0x29 => (.ANDAccumulator, .Immediate)
  | 0xAC => (.LoadY, .Absolute)
  | 0xAE => (.LoadX, .Absolute)
  | 0x85 => (.StoreAccumulator, .ZeroPage)
  | 0xE0 => (.CompareX, .Immediate)
  | 0xBE => (.LoadX, .AbsoluteY)
  | 0x9D => (.StoreAccumulator, .AbsoluteX)
  | 0x4A => (.ShiftOneRight, .Accumulator)
  | 0xF0 => (.BranchOnResultZero, .Relative)
  | 0xC6 => (.DecrementMem, .ZeroPage)
  | 0xCE => (.DecrementMem, .Absolute)
  | 0xE6 => (.IncrementMem, .ZeroPage)
  | 0xF6 => (.IncrementMem, .ZeroPageX)
  | 0x45 => (.EORAccumulator, .ZeroPage)
  | 0x18 => (.ClearCarry, .Implied)
  | 0x38 => (.SetCarry, .Implied)
  | 0x7E => (.RotateOneRight, .AbsoluteX)
  | 0xE8 => (.IncrementX, .Implied)
  | 0x48 => (.PushAccumulatorOnStack, .Implied)
  | 0x40 => (.ReturnFromInterrupt, .Implied)
  | 0x60 => (.ReturnFromSubroutine, .Implied)
  | 0xA8 => (.TransferAccumulatorToY, .Implied)
  | 0x84 => (.StoreY, .ZeroPage)
  | 0x49 => (.EORAccumulator, .Immediate)
  | 0xC5 => (.CompareAccumulator, .ZeroPage)
  | 0x90 => (.BranchOnCarryClear, .Relative)
  | 0x79 => (.AddMemToAccumulatorWithCarry, .AbsoluteY)
  | 0x65 => (.AddMemToAccumulatorWithCarry, .ZeroPage)
  | 0xB9 => (.LoadAccumulator, .AbsoluteY)
  | 0x69 => (.AddMemToAccumulatorWithCarry, .Immediate)
  | 0x31 => (.ANDAccumulator, .YIndirect)
  | 0x2C => (.TestBitsAccumulator, .Absolute)
  | 0x24 => (.TestBitsAccumulator, .ZeroPage)
  | 0x99 => (.StoreAccumulator, .AbsoluteY)
  | 0x0D => (.ORAccumulator, .Absolute)
  | 0xC0 => (.CompareY, .Immediate)
  | 0x8A => (.TransferXToAccumulator, .Implied)
  | 0x30 => (.BranchOnResultMinus, .Relative)
  | 0xA5 => (.LoadAccumulator, .ZeroPage)
  | 0x0A => (.ShiftOneLeft, .Accumulator)
  | 0x81 => (.StoreAccumulator, .XIndirect)
  | 0xC1 => (.CompareAccumulator, .XIndirect)
  | 0x05 => (.ORAccumulator, .ZeroPage)
  | 0x28 => (.PullProcessorStatusFromStack, .Implied)
  | 0x86 => (.StoreX, .ZeroPage)
  | 0xB4 => (.LoadY, .ZeroPageX)
  | 0x98 => (.TransferYToAccumulator, .Implied)
  | 0xE9 => (.SubtractAccumulatorWithBorrow, .Immediate)
  | 0xF8 => (.SetDecimalMode, .Implied)
  | 0x50 => (.BranchOnOverflowClear, .Relative)
  | 0xFE => (.IncrementMem, .AbsoluteX)
  | 0xAA => (.TransferAccumulatorToX, .Implied)
  | 0xBC => (.LoadY, .AbsoluteX)
  | 0xA6 => (.LoadX, .ZeroPage)
  | 0xB5 => (.LoadAccumulator, .ZeroPageX)
  | 0x19 => (.ORAccumulator, .AbsoluteY)
  | 0x70 => (.BranchOnOverflowSet, .Relative)
  | 0x16 => (.ShiftOneLeft, .ZeroPageX)
  | 0x91 => (.StoreAccumulator, .YIndirect)
  | 0x15 => (.ORAccumulator, .ZeroPageX)
  | 0x1D => (.ORAccumulator, .AbsoluteX)
  | 0x0E => (.ShiftOneLeft, .Absolute)
  | 0x2E => (.RotateOneLeft, .Absolute)
  | 0x21 => (.ANDAccumulator, .XIndirect)
  | 0xCD => (.CompareAccumulator, .Absolute)
  | 0x25 => (.ANDAccumulator, .ZeroPage)
  | 0x26 => (.RotateOneLeft, .ZeroPage)
  | 0x36 => (.RotateOneLeft, .ZeroPageX)
  | 0x46 => (.ShiftOneRight, .ZeroPage)
  | 0x56 => (.ShiftOneRight, .ZeroPageX)
  | 0x2D => (.ANDAccumulator, .Absolute)
  | 0x3D => (.ANDAccumulator, .AbsoluteX)
  | 0x39 => (.ANDAccumulator, .AbsoluteY)
  | 0x08 => (.PushProcessorStatusOnStack, .Implied)
  | 0x5D => (.EORAccumulator, .AbsoluteX)
  | 0x59 => (.EORAccumulator, .AbsoluteY)
  | 0x6E => (.RotateOneRight, .Absolute)
  | 0x2A => (.RotateOneLeft, .Accumulator)
  | 0x06 => (.ShiftOneLeft, .ZeroPage)
  | 0xA1 => (.LoadAccumulator, .XIndirect)
  | 0xB1 => (.LoadAccumulator, .YIndirect)
  | 0xA4 => (.LoadY, .ZeroPage)
  | 0x4E => (.ShiftOneRight, .Accumulator)
  | 0x35 => (.ANDAccumulator, .ZeroPageX)
  | 0xBA => (.TransferStackPointerToX, .Implied)
  | 0x66 => (.RotateOneRight, .ZeroPage)
  | 0x6A => (.RotateOneRight, .Accumulator)
  | 0x4D => (.EORAccumulator, .Absolute)
  | 0x51 => (.EORAccumulator, .YIndirect)
  | 0x6D => (.AddMemToAccumulatorWithCarry, .Absolute)
  | 0x61 => (.AddMemToAccumulatorWithCarry, .XIndirect)
  | 0x71 => (.AddMemToAccumulatorWithCarry, .YIndirect)
  | 0x76 => (.RotateOneRight, .ZeroPageX)
  | 0xB6 => (.LoadX, .ZeroPageY)
  | 0x5E => (.ShiftOneRight, .AbsoluteX)
  | 0xCC => (.CompareY, .Absolute)
  | 0x58 => (.ClearInterruptDisable, .Implied)
  | 0x1E => (.ShiftOneLeft, .AbsoluteX)
  | 0xF9 => (.SubtractAccumulatorWithBorrow, .AbsoluteY)
  | 0x55 => (.EORAccumulator, .ZeroPageX)
  | 0xD1 => (.CompareAccumulator, .YIndirect)
  | 0xFD => (.SubtractAccumulatorWithBorrow, .AbsoluteX)
  | 0x95 => (.StoreAccumulator, .ZeroPageX)
  | 0xD9 => (.CompareAccumulator, .AbsoluteY)
  | 0x96 => (.StoreX, .ZeroPageY)
  | 0x94 => (.StoreY, .ZeroPageX)
  | 0xDD => (.CompareAccumulator, .AbsoluteX)
  | 0xB8 => (.ClearOverflow, .Implied)
  | 0xD6 => (.DecrementMem, .ZeroPageX)
  | 0xC4 => (.CompareY, .ZeroPage)
  | 0x7D => (.AddMemToAccumulatorWithCarry, .AbsoluteX)
  | 0x75 => (.AddMemToAccumulatorWithCarry, .ZeroPageX)
  | 0xE4 => (.CompareX, .ZeroPage)
  | 0xD5 => (.CompareAccumulator, .ZeroPageX)
  | 0xED => (.SubtractAccumulatorWithBorrow, .Absolute)
  | 0xE5 => (.SubtractAccumulatorWithBorrow, .ZeroPage)
  | 0xF5 => (.SubtractAccumulatorWithBorrow, .ZeroPageX)
  | 0xE1 => (.SubtractAccumulatorWithBorrow, .XIndirect)
  | 0xF1 => (.SubtractAccumulatorWithBorrow, .YIndirect)
  | 0x3E => (.RotateOneLeft, .AbsoluteX)
  | 0x03 => (.SLO, .XIndirect)
  | 0x07 => (.SLO, .ZeroPage)
  | 0x13 => (.SLO, .YIndirect)
  | 0x17 => (.SLO, .ZeroPageX)
  | 0x1F => (.SLO, .AbsoluteX)
  | 0x0F => (.SLO, .Absolute)
  | 0x1B => (.SLO, .AbsoluteY)
  | 0xE7 => (.ISC, .ZeroPage)
  | 0xF3 => (.ISC, .YIndirect)
  | 0xE3 => (.ISC, .XIndirect)
  | 0xEF => (.ISC, .Absolute)
  | 0xFB => (.ISC, .AbsoluteY)
  | 0xFF => (.ISC, .AbsoluteX)
  | 0xF7 => (.ISC, .ZeroPageX)
  | 0x27 => (.RLA, .ZeroPage)
  | 0x23 => (.RLA, .XIndirect)
  | 0x37 => (.RLA, .ZeroPage)
  | 0x2F => (.RLA, .Absolute)
  | 0x3B => (.RLA, .AbsoluteY)
  | 0x33 => (.RLA, .YIndirect)
  | 0x3F => (.RLA, .AbsoluteX)
  | 0x67 => (.RRA, .ZeroPage)
  | 0x63 => (.RRA, .XIndirect)
  | 0x7F => (.RRA, .AbsoluteX)
  | 0x7B => (.RRA, .AbsoluteY)
  | 0x73 => (.RRA, .YIndirect)
  | 0x6F => (.RRA, .Absolute)
  | 0x77 => (.RRA, .ZeroPageX)
  | 0xA3 => (.LAX, .XIndirect)
  | 0xA7 => (.LAX, .ZeroPage)
  | 0xAF => (.LAX, .Absolute)
  | 0xBF => (.LAX, .AbsoluteY)
  | 0xB7 => (.LAX, .ZeroPageY)
  | 0xB3 => (.LAX, .YIndirect)
  | 0x5B => (.SRE, .AbsoluteY)
  | 0x43 => (.SRE, .XIndirect)
  | 0x53 => (.SRE, .YIndirect)
  | 0x5F => (.SRE, .AbsoluteX)
  | 0x4F => (.SRE, .Absolute)
  | 0x47 => (.SRE, .ZeroPage)
  | 0x57 => (.SRE, .ZeroPageX)
  | 0xC3 => (.DCP, .XIndirect)
  | 0xD3 => (.DCP, .YIndirect)
  | 0xDB => (.DCP, .AbsoluteY)
  | 0xC7 => (.DCP, .ZeroPage)
  | 0xD7 => (.DCP, .ZeroPageX)
  | 0xDF => (.DCP, .AbsoluteX)
  | 0xCF => (.DCP, .Absolute)
  | 0xEB => (.USBC, .Immediate)
  | 0x97 => (.SAX, .ZeroPageY)
  | 0x8F => (.SAX, .Absolute)
  | 0x83 => (.SAX, .XIndirect)
  | 0x6B => (.ARR, .Immediate)
  | 0x4B => (.ALR, .Immediate)
  | 0x9E => (.SHX, .AbsoluteY)
  | 0x9C => (.SHY, .AbsoluteX)
  | 0x9F => (.SHA, .AbsoluteY)
  | 0x93 => (.SHA, .YIndirect)
  | 0x2B => (.ANC, .Immediate)
  | 0x0B => (.ANC, .Immediate)
  | 0x8B => (.ANE, .Immediate)
  | 0x87 => (.SAX, .ZeroPage)
  | 0x9B => (.TAS, .AbsoluteY)
  | 0xBB => (.LAS, .AbsoluteY)
  | 0xAB => (.LXA, .Immediate)
  | 0xCB => (.SBX, .Immediate)
  | 0x1A | 0x3A | 0x5A | 0x7A | 0xDA | 0xEA | 0xFA => (.NoOperation, .Implied)
  | 0x04 | 0x44 | 0x64 | 0x89 => (.NoOperation, .ZeroPage)
  | 0x80 | 0x82 | 0xC2 | 0xE2 => (.NoOperation, .Immediate)
  | 0x14 | 0x34 | 0x54 | 0x74 | 0xD4 | 0xF4 => (.NoOperation, .ZeroPageX)
  | 0x0C => (.NoOperation, .Absolute)
  | 0x1C | 0x3C | 0x5C | 0x7C | 0xDC | 0xFC => (.NoOperation, .AbsoluteX)
  | 0x02 | 0x12 | 0x22 | 0x32 | 0x42 | 0x52 | 0x62 | 0x72
  | 0x92 | 0xB2 | 0xD2 | 0xF2 => (.JAM, .Implied)
  | 0x00 => (.ForceBreak, .Implied)
  | _ => (.MissingOperation, .Implied)

set_option maxHeartbeats 2000000 in
/-- NesCpu::encode_instructions from src/instructions.rs: map from an
operation and addressing mode pair back to an opcode byte; pairs without an
arm fall through to the jam byte 0x02.  The source match contains two arms
that are unreachable because an earlier arm has the same pattern, namely
(RLA, ZeroPage) for 0x37 after 0x27 and (ANC, Immediate) for 0x0B after
0x2B; first match wins, so they are omitted here. -/
def encode_instructions (instruction : Instructions)
    (addressing_mode : AddressingMode) : Nat :=
  match instruction, addressing_mode with
  | .SetInterruptDisable, .Implied => 0x78
  | .ClearDecimalMode, .Implied => 0xD8
  | .LoadAccumulator, .Immediate => 0xA9
  | .StoreAccumulator, .Absolute => 0x8D
  | .LoadX, .Immediate => 0xA2
  | .MoveXToStackPointer, .Implied => 0x9A
  | .LoadAccumulator, .Absolute => 0xAD
  | .BranchOnResultPlus, .Relative => 0x10
  | .LoadY, .Immediate => 0xA0
  | .LoadAccumulator, .AbsoluteX => 0xBD
  | .CompareAccumulator, .Immediate => 0xC9
  | .BranchOnCarrySet, .Relative => 0xB0
  | .DecrementX, .Implied => 0xCA
  | .DecrementY, .Implied => 0x88
  | .BranchOnResultNotZero, .Relative => 0xD0
  | .JumpSubroutine, .Absolute => 0x20
  | .IncrementMem, .Absolute => 0xEE
  | .ORAccumulator, .Immediate => 0x09
  | .Jump, .Absolute => 0x4C
  | .Jump, .Indirect => 0x6C
  | .ORAccumulator, .XIndirect => 0x01
  | .ORAccumulator, .YIndirect => 0x11
  | .IncrementY, .Implied => 0xC8
  | .CompareX, .Absolute => 0xEC
  | .EORAccumulator, .XIndirect => 0x41
  | .PullAccumulatorFromStack, .Implied => 0x68
  | .DecrementMem, .AbsoluteX => 0xDE
  | .StoreX, .Absolute => 0x8E
  | .StoreY, .Absolute => 0x8C
  | .ANDAccumulator, .Immediate => 0x29
  | .LoadY, .Absolute => 0xAC
  | .LoadX, .Absolute => 0xAE
  | .StoreAccumulator, .ZeroPage => 0x85
  | .CompareX, .Immediate => 0xE0
  | .LoadX, .AbsoluteY => 0xBE
  | .StoreAccumulator, .AbsoluteX => 0x9D
  | .ShiftOneRight, .Accumulator => 0x4A
  | .BranchOnResultZero, .Relative => 0xF0
  | .DecrementMem, .ZeroPage => 0xC6
  | .DecrementMem, .Absolute => 0xCE
  | .IncrementMem, .ZeroPage => 0xE6
  | .IncrementMem, .ZeroPageX => 0xF6
  | .EORAccumulator, .ZeroPage => 0x45
  | .ClearCarry, .Implied => 0x18
  | .SetCarry, .Implied => 0x38
  | .RotateOneRight, .AbsoluteX => 0x7E
  | .IncrementX, .Implied => 0xE8
  | .PushAccumulatorOnStack, .Implied => 0x48
  | .ReturnFromInterrupt, .Implied => 0x40
  | .ReturnFromSubroutine, .Implied => 0x60
  | .TransferAccumulatorToY, .Implied => 0xA8
  | .StoreY, .ZeroPage => 0x84
  | .EORAccumulator, .Immediate => 0x49
  | .CompareAccumulator, .ZeroPage => 0xC5
  | .BranchOnCarryClear, .Relative => 0x90
  | .AddMemToAccumulatorWithCarry, .AbsoluteY => 0x79
  | .AddMemToAccumulatorWithCarry, .ZeroPage => 0x65
  | .LoadAccumulator, .AbsoluteY => 0xB9
  | .AddMemToAccumulatorWithCarry, .Immediate => 0x69
  | .ANDAccumulator, .YIndirect => 0x31
  | .TestBitsAccumulator, .Absolute => 0x2C
  | .TestBitsAccumulator, .ZeroPage => 0x24
  | .StoreAccumulator, .AbsoluteY => 0x99
  | .ORAccumulator, .Absolute => 0x0D
  | .CompareY, .Immediate => 0xC0
  | .TransferXToAccumulator, .Immediate => 0x8A
  | .BranchOnResultMinus, .Relative => 0x30
  | .LoadAccumulator, .ZeroPage => 0xA5
  | .ShiftOneLeft, .Accumulator => 0x0A
  | .StoreAccumulator, .XIndirect => 0x81
  | .CompareAccumulator, .XIndirect => 0xC1
  | .ORAccumulator, .ZeroPage => 0x05
  | .PullProcessorStatusFromStack, .Implied => 0x28
  | .StoreX, .ZeroPage => 0x86
  | .LoadY, .ZeroPageX => 0xB4
  | .TransferYToAccumulator, .Implied => 0x98
  | .SubtractAccumulatorWithBorrow, .Immediate => 0xE9
  | .SetDecimalMode, .Implied => 0xF8
  | .BranchOnOverflowClear, .Relative => 0x50
  | .IncrementMem, .AbsoluteX => 0xFE
  | .TransferAccumulatorToX, .Implied => 0xAA
  | .LoadY, .AbsoluteX => 0xBC
  | .LoadX, .ZeroPage => 0xA6
  | .LoadAccumulator, .ZeroPageX => 0xB5
  | .ORAccumulator, .AbsoluteY => 0x19
  | .BranchOnOverflowSet, .Relative => 0x70
  | .ShiftOneLeft, .ZeroPageX => 0x16
  | .StoreAccumulator, .YIndirect => 0x91
  | .ORAccumulator, .ZeroPageX => 0x15
  | .ORAccumulator, .AbsoluteX => 0x1D
  | .ShiftOneLeft, .Absolute => 0x0E
  | .RotateOneLeft, .Absolute => 0x2E
  | .ANDAccumulator, .XIndirect => 0x21
  | .CompareAccumulator, .Absolute => 0xCD
  | .ANDAccumulator, .ZeroPage => 0x25
  | .RotateOneLeft, .ZeroPage => 0x26
  | .RotateOneLeft, .ZeroPageX => 0x36
  | .ShiftOneRight, .ZeroPage => 0x46
  | .ShiftOneRight, .ZeroPageX => 0x56
  | .ANDAccumulator, .Absolute => 0x2D
  | .ANDAccumulator, .AbsoluteX => 0x3D
  | .ANDAccumulator, .AbsoluteY => 0x39
  | .PushProcessorStatusOnStack, .Implied => 0x08
  | .EORAccumulator, .AbsoluteX => 0x5D
  | .EORAccumulator, .AbsoluteY => 0x59
  | .RotateOneRight, .Absolute => 0x6E
  | .RotateOneLeft, .Accumulator => 0x2A
  | .ShiftOneLeft, .ZeroPage => 0x06
  | .LoadAccumulator, .XIndirect => 0xA1
  | .LoadAccumulator, .YIndirect => 0xB1
  | .LoadY, .ZeroPage => 0xA4
  | .ShiftOneRight, .Absolute => 0x4E
  | .ANDAccumulator, .ZeroPageX => 0x35
  | .TransferStackPointerToX, .Implied => 0xBA
  | .RotateOneRight, .ZeroPage => 0x66
  | .RotateOneRight, .Accumulator => 0x6A
  | .EORAccumulator, .Absolute => 0x4D
  | .EORAccumulator, .YIndirect => 0x51
  | .AddMemToAccumulatorWithCarry, .Absolute => 0x6D
  | .AddMemToAccumulatorWithCarry, .XIndirect => 0x61
  | .AddMemToAccumulatorWithCarry, .YIndirect => 0x71
  | .RotateOneRight, .ZeroPageX => 0x76
  | .LoadX, .ZeroPageY => 0xB6
  | .ShiftOneRight, .AbsoluteX => 0x5E
  | .CompareY, .Absolute => 0xCC
  | .ClearInterruptDisable, .Implied => 0x58
  | .ShiftOneLeft, .AbsoluteX => 0x1E
  | .SubtractAccumulatorWithBorrow, .AbsoluteY => 0xF9
  | .EORAccumulator, .ZeroPageX => 0x55
  | .CompareAccumulator, .YIndirect => 0xD1
  | .SubtractAccumulatorWithBorrow, .AbsoluteX => 0xFD
  | .StoreAccumulator, .ZeroPageX => 0x95
  | .CompareAccumulator, .AbsoluteY => 0xD9
  | .StoreX, .ZeroPageY => 0x96
  | .StoreY, .ZeroPageX => 0x94
  | .CompareAccumulator, .AbsoluteX => 0xDD
  | .ClearOverflow, .Implied => 0xB8
  | .DecrementMem, .ZeroPageX => 0xD6
  | .CompareY, .ZeroPage => 0xC4
  | .AddMemToAccumulatorWithCarry, .AbsoluteX => 0x7D
  | .AddMemToAccumulatorWithCarry, .ZeroPageX => 0x75
  | .CompareX, .ZeroPage => 0xE4
  | .CompareAccumulator, .ZeroPageX => 0xD5
  | .SubtractAccumulatorWithBorrow, .Absolute => 0xED
  | .SubtractAccumulatorWithBorrow, .ZeroPage => 0xE5
  | .SubtractAccumulatorWithBorrow, .ZeroPageX => 0xF5
  | .SubtractAccumulatorWithBorrow, .XIndirect => 0xE1
  | .SubtractAccumulatorWithBorrow, .YIndirect => 0xF1
  | .RotateOneLeft, .AbsoluteX => 0x3E
  | .SLO, .XIndirect => 0x03
  | .SLO, .ZeroPage => 0x07
  | .SLO, .YIndirect => 0x13
  | .SLO, .ZeroPageX => 0x17
  | .SLO, .AbsoluteX => 0x1F
  | .SLO, .Absolute => 0x0F
  | .SLO, .AbsoluteY => 0x1B
  | .ISC, .ZeroPage => 0xE7
  | .ISC, .YIndirect => 0xF3
  | .ISC, .XIndirect => 0xE3
  | .ISC, .Absolute => 0xEF
  | .ISC, .AbsoluteY => 0xFB
  | .ISC, .AbsoluteX => 0xFF
  | .ISC, .ZeroPageX => 0xF7
  | .RLA, .ZeroPage => 0x27
  | .RLA, .XIndirect => 0x23
  | .RLA, .Absolute => 0x2F
  | .RLA, .AbsoluteY => 0x3B
  | .RLA, .YIndirect => 0x33
  | .RLA, .AbsoluteX => 0x3F
  | .RRA, .ZeroPage => 0x67
  | .RRA, .XIndirect => 0x63
  | .RRA, .AbsoluteX => 0x7F
  | .RRA, .AbsoluteY => 0x7B
  | .RRA, .YIndirect => 0x73
  | .RRA, .Absolute => 0x6F
  | .RRA, .ZeroPageX => 0x77
  | .LAX, .XIndirect => 0xA3
  | .LAX, .ZeroPage => 0xA7
  | .LAX, .Absolute => 0xAF
  | .LAX, .AbsoluteY => 0xBF
  | .LAX, .ZeroPageY => 0xB7
  | .LAX, .YIndirect => 0xB3
  | .SRE, .AbsoluteY => 0x5B
  | .SRE, .XIndirect => 0x43
  | .SRE, .YIndirect => 0x53
  | .SRE, .AbsoluteX => 0x5F
  | .SRE, .Absolute => 0x4F
  | .SRE, .ZeroPage => 0x47
  | .SRE, .ZeroPageX => 0x57
  | .DCP, .XIndirect => 0xC3
  | .DCP, .YIndirect => 0xD3
  | .DCP, .AbsoluteY => 0xDB
  | .DCP, .ZeroPage => 0xC7
  | .DCP, .ZeroPageX => 0xD7
  | .DCP, .AbsoluteX => 0xDF
  | .DCP, .Absolute => 0xCF
  | .USBC, .Immediate => 0xEB
  | .SAX, .ZeroPageY => 0x97
  | .SAX, .Absolute => 0x8F
  | .SAX, .XIndirect => 0x83
  | .ARR, .Immediate => 0x6B
  | .ALR, .Immediate => 0x4B
  | .SHX, .AbsoluteY => 0x9E
  | .SHY, .AbsoluteX => 0x9C
  | .SHA, .AbsoluteY => 0x9F
  | .SHA, .YIndirect => 0x93
  | .ANC, .Immediate => 0x2B
  | .ANE, .Immediate => 0x8B
  | .SAX, .ZeroPage => 0x87
  | .TAS, .AbsoluteY => 0x9B
  | .LAS, .AbsoluteY => 0xBB
  | .LXA, .Immediate => 0xAB
  | .SBX, .Immediate => 0xCB
  | .NoOperation, .Implied => 0x1A
  | .NoOperation, .ZeroPage => 0x04
  | .NoOperation, .Immediate => 0x80
  | .NoOperation, .ZeroPageX => 0x14
  | .NoOperation, .Absolute => 0x0C
  | .NoOperation, .AbsoluteX => 0x1C
  | .JAM, .Implied => 0x02
  | .ForceBreak, .Implied => 0x00
  | _, _ => 0x02

/-- NesCpu::add_mem_to_accumulator_with_carry from src/cpu.rs (the ADC
implementation).  The operand and the carry bit are first added to each
other as u8 values, the wrapped sum is added to the accumulator with
overflowing_add, and the flags are updated exactly as in the source:
overflow is set when the sign of A differs from the sign of the operand
and from the sign of the result.  Addressing modes without a source arm
panic (none).  Note the source reads the AbsoluteY index from idx. -/
def add_mem_to_accumulator_with_carry (cpu : NesCpu) : Option NesCpu :=
  let addrOpt : Option Nat :=
    match cpu.current.mode with
    | .Immediate => some 0
    | .Absolute => some (next_word cpu)
    | .AbsoluteX => some (wadd16 (read_word cpu.memory (wadd16 cpu.reg.pc 1)) cpu.reg.idx)
    | .AbsoluteY => some (wadd16 (read_word cpu.memory (wadd16 cpu.reg.pc 1)) cpu.reg.idx)
    | .ZeroPage => some (next_byte cpu)
    | .ZeroPageX => some (wadd8 (next_byte cpu) cpu.reg.idx)
    | .ZeroPageY => some (wadd8 (next_byte cpu) cpu.reg.idy)
    | .XIndirect => some (get_indirect_x cpu)
    | .YIndirect => some (get_indirect_y cpu)
    | _ => none
  match addrOpt with
  | none => none
  | some address =>
    let operand :=
      match cpu.current.mode with
      | .Immediate => next_byte cpu
      | _ => read_byte cpu.memory address
    let carry_add := if cpu.reg.flags.carry then 1 else 0
    let rc := overflowing_add8 cpu.reg.accumulator (wadd8 operand carry_add)
    let result := rc.1
    let carry_out := rc.2
    let a := cpu.reg.accumulator
    some (next { cpu with reg := { cpu.reg with
      accumulator := result
      flags := { cpu.reg.flags with
        carry := carry_out
        overflow := (((a ^^^ operand) &&& 0x80) != 0)
          && (((a ^^^ result) &&& 0x80) != 0)
        zero := result == 0
        negative := (result &&& 0x80) != 0 } } })

/-- NesCpu::subtract_accumulator_with_borrow from src/cpu.rs (the SBC
implementation).  The source subtracts the operand and then the carry bit
itself (borrow = carry as int), updates the accumulator, and sets carry,
zero, negative and a two-case overflow exactly as written there. -/
def subtract_accumulator_with_borrow (cpu : NesCpu) : Option NesCpu :=
  let addrOpt : Option Nat :=
    match cpu.current.mode with
    | .Immediate => some 0
    | .Absolute => some (next_word cpu)
    | .AbsoluteX => some (wadd16 (next_word cpu) cpu.reg.idx)
    | .AbsoluteY => some (wadd16 (next_word cpu) cpu.reg.idy)
    | .XIndirect => some (get_indirect_x cpu)
    | .YIndirect => some (get_indirect_y cpu)
    | .ZeroPage => some (next_byte cpu)
    | .ZeroPageX => some (wadd8 (next_byte cpu) cpu.reg.idx)
    | .ZeroPageY => some (wadd8 (next_byte cpu) cpu.reg.idy)
    | _ => none
  match addrOpt with
  | none => none
  | some address =>
    let operand :=
      match cpu.current.mode with
      | .Immediate => next_byte cpu
      | _ => read_byte cpu.memory address
    let borrow := if cpu.reg.flags.carry then 1 else 0
    let result := wsub8 (wsub8 cpu.reg.accumulator operand) borrow
    let reg_before := cpu.reg.accumulator
    let over := (borrow == 0 && Nat.blt 127 operand)
      && Nat.blt reg_before 128 && Nat.blt 127 result
    let under := Nat.blt 127 reg_before
      && Nat.blt 127 (wsub8 (wsub8 0 operand) borrow)
      && Nat.blt result 128
    some (next { cpu with reg := { cpu.reg with
      accumulator := result
      flags := { cpu.reg.flags with
        carry := (Nat.blt 0 result && Nat.blt result 128) || borrow == 0
        zero := result == 0
        negative := (result &&& 0x80) == 0x80
        overflow := over || under } } })

/-- NesCpu::rotate from src/cpu.rs (ROL and ROR).  For RotateOneLeft the
source latches bit 7 of the input into carry, bit 6 into negative, and ors
the NEW carry (bit 7 of the input) into bit 0 of the shifted value; for the
other rotate it latches the old carry into negative, bit 0 into carry, and
ors the NEW carry (bit 0 of the input) into bit 7.  The incoming carry flag
never enters the rotated byte. -/
def rotate (cpu : NesCpu) : Option NesCpu :=
  let addrOpt : Option Nat :=
    match cpu.current.mode with
    | .Accumulator => some 0
    | .Absolute => some (next_word cpu)
    | .AbsoluteX => some (wadd16 (next_word cpu) cpu.reg.idx)
    | .AbsoluteY => some (wadd16 (next_word cpu) cpu.reg.idy)
    | .ZeroPage => some (next_byte cpu)
    | .ZeroPageX => some (wadd8 (next_byte cpu) cpu.reg.idx)
    | .ZeroPageY => some (wadd8 (next_byte cpu) cpu.reg.idy)
    | _ => none
  match addrOpt with
  | none => none
  | some address =>
    let value :=
      match cpu.current.mode with
      | .Accumulator => cpu.reg.accumulator
      | _ => read_byte cpu.memory address
    let fs :=
      if cpu.current.op = Instructions.RotateOneLeft then
        let carry2 := (value &&& 0x80) == 0x80
        let bit := if carry2 then 1 else 0
        (((value <<< 1) % 256) ||| bit, carry2, (value &&& 0x40) == 0x40)
      else
        let carry2 := (value &&& 0x1) == 0x1
        let bit := if carry2 then 0x80 else 0
        ((value >>> 1) ||| bit, carry2, cpu.reg.flags.carry)
    let shifted := fs.1
    let cpu2 : NesCpu := { cpu with reg := { cpu.reg with
      flags := { cpu.reg.flags with
        carry := fs.2.1
        negative := fs.2.2
        zero := shifted == 0 } } }
    let cpu3 : NesCpu :=
      if cpu.current.mode = AddressingMode.Accumulator then
        { cpu2 with reg := { cpu2.reg with accumulator := shifted } }
      else
        { cpu2 with memory := write_byte cpu2.memory address shifted }
    some (next cpu3)

/-- NesCpu::branch from src/cpu.rs.  The condition is selected from the
current operation; when it holds the new pc is pc + 2 + the operand byte
cast to u16 (a zero-extension in the source), otherwise pc advances by the
mode increment.  Non-branch operations and non-Relative taken branches
panic (none). -/
def branch (cpu : NesCpu) : Option NesCpu :=
  let conditionOpt : Option Bool :=
    match cpu.current.op with
    | .BranchOnResultMinus => some cpu.reg.flags.negative
    | .BranchOnResultZero => some cpu.reg.flags.zero
    | .BranchOnResultNotZero => some (!cpu.reg.flags.zero)
    | .BranchOnResultPlus => some (!cpu.reg.flags.negative)
    | .BranchOnOverflowSet => some cpu.reg.flags.overflow
    | .BranchOnOverflowClear => some (!cpu.reg.flags.overflow)
    | .BranchOnCarrySet => some cpu.reg.flags.carry
    | .BranchOnCarryClear => some (!cpu.reg.flags.carry)
    | _ => none
  match conditionOpt with
  | none => none
  | some condition =>
    if condition then
      match cpu.current.mode with
      | .Relative =>
        let value := next_byte cpu
        some { cpu with reg := { cpu.reg with
          pc := wadd16 (wadd16 cpu.reg.pc 2) value } }
      | _ => none
    else
      some (next cpu)

/-- The (Jump, Indirect) arm of NesCpu::execute from src/cpu.rs: read the
16-bit operand; when it equals 0x2FF the target is hard-coded to 0x0300
(the workaround flagged in the source), otherwise the target is the word
read from memory at the operand; then jump. -/
def execute_jump_indirect (cpu : NesCpu) : NesCpu :=
  let address := next_word cpu
  let address2 :=
    if address = 0x2FF then 0x300
    else read_word cpu.memory address
  jump cpu address2

/-- NesCpu::increase_register from src/cpu.rs (INX and INY).  The register
wraps to the new value; when it wraps to zero the source sets BOTH the zero
and the overflow flag, otherwise it only clears zero.  The negative flag is
never touched. -/
def increase_register (cpu : NesCpu) : Option NesCpu :=
  let bump (flags : CPUFlags) (v : Nat) : CPUFlags :=
    if v = 0 then { flags with zero := true, overflow := true }
    else { flags with zero := false }
  match cpu.current.op with
  | .IncrementX =>
    let v := wadd8 cpu.reg.idx 1
    some (next { cpu with reg := { cpu.reg with
      idx := v, flags := bump cpu.reg.flags v } })
  | .IncrementY =>
    let v := wadd8 cpu.reg.idy 1
    some (next { cpu with reg := { cpu.reg with
      idy := v, flags := bump cpu.reg.flags v } })
  | _ => none

/-- NesCpu::decrease_register from src/cpu.rs (DEX and DEY).  When the
register wraps to 0xFF the source clears zero and sets negative; when it
reaches 0 it sets zero only; otherwise it clears zero only. -/
def decrease_register (cpu : NesCpu) : Option NesCpu :=
  let drop (flags : CPUFlags) (v : Nat) : CPUFlags :=
    if v = 0xFF then { flags with zero := false, negative := true }
    else if v = 0 then { flags with zero := true }
    else { flags with zero := false }
  match cpu.current.op with
  | .DecrementX =>
    let v := wsub8 cpu.reg.idx 1
    some (next { cpu with reg := { cpu.reg with
      idx := v, flags := drop cpu.reg.flags v } })
  | .DecrementY =>
    let v := wsub8 cpu.reg.idy 1
    some (next { cpu with reg := { cpu.reg with
      idy := v, flags := drop cpu.reg.flags v } })
  | _ => none

/-- All-zero memory image. -/
def memZero : Nat → Nat := fun _ => 0

/-- All-clear flag state. -/
def flagsClear : CPUFlags :=
  { carry := false, zero := false, interrupt_disable := false,
    decimal := false, overflow := false, negative := false }

/-- CPU about to pop with the stack pointer at 0xFF. -/
def cpuPop : NesCpu :=
  { memory := memZero
    reg := { pc := 0x8000, sp := 0xFF, accumulator := 0, idx := 0, idy := 0,
             flags := flagsClear }
    current := { op := .PullAccumulatorFromStack, mode := .Implied } }

/-- CPU about to push with the stack pointer at its reset value 0xFD. -/
def cpuPush : NesCpu :=
  { memory := memZero
    reg := { pc := 0x8000, sp := 0xFD, accumulator := 0, idx := 0, idy := 0,
             flags := flagsClear }
    current := { op := .PushAccumulatorOnStack, mode := .Implied } }

/-- CPU at 0x8000 about to take a BEQ with offset byte 0xFC (minus 4 when
sign-extended). -/
def cpuBeq : NesCpu :=
  { memory := fun a => if a = 0x8001 then 0xFC else 0
    reg := { pc := 0x8000, sp := 0xFD, accumulator := 0, idx := 0, idy := 0,
             flags := { flagsClear with zero := true } }
    current := { op := .BranchOnResultZero, mode := .Relative } }

/-- CPU about to run SBC immediate with A = 5, operand 3 and carry set. -/
def cpuSbc : NesCpu :=
  { memory := fun a => if a = 0x8001 then 3 else 0
    reg := { pc := 0x8000, sp := 0xFD, accumulator := 5, idx := 0, idy := 0,
             flags := { flagsClear with carry := true } }
    current := { op := .SubtractAccumulatorWithBorrow, mode := .Immediate } }

/-- CPU about to run ADC immediate with A = 0x50, operand 0x50 and carry
clear (the canonical signed-overflow case 0x50 + 0x50 = 0xA0). -/
def cpuAdc : NesCpu :=
  { memory := fun a => if a = 0x8001 then 0x50 else 0
    reg := { pc := 0x8000, sp := 0xFD, accumulator := 0x50, idx := 0, idy := 0,
             flags := flagsClear }
    current := { op := .AddMemToAccumulatorWithCarry, mode := .Immediate } }

/-- CPU about to run ROL on the accumulator with A = 0 and carry set. -/
def cpuRol : NesCpu :=
  { memory := memZero
    reg := { pc := 0x8000, sp := 0xFD, accumulator := 0, idx := 0, idy := 0,
             flags := { flagsClear with carry := true } }
    current := { op := .RotateOneLeft, mode := .Accumulator } }

/-- CPU about to run JMP (indirect) with operand 0x02FF; the pointed-to word
is 0x1234 (bytes 0x34 at 0x02FF and 0x12 at 0x0300) and the byte at 0x0200,
relevant for the hardware page-wrap bug, is 0x99. -/
def cpuJmpInd : NesCpu :=
  { memory := fun a =>
      if a = 0x8001 then 0xFF
      else if a = 0x8002 then 0x02
      else if a = 0x2FF then 0x34
      else if a = 0x300 then 0x12
      else if a = 0x200 then 0x99
      else 0
    reg := { pc := 0x8000, sp := 0xFD, accumulator := 0, idx := 0, idy := 0,
             flags := flagsClear }
    current := { op := .Jump, mode := .Indirect } }

/-- CPU about to run INX with X = 0x7F and every flag clear. -/
def cpuInx : NesCpu :=
  { memory := memZero
    reg := { pc := 0x8000, sp := 0xFD, accumulator := 0, idx := 0x7F, idy := 0,
             flags := flagsClear }
    current := { op := .IncrementX, mode := .Implied } }

/-- CPU about to run INX with X = 0xFF (wrap to zero) and every flag clear. -/
def cpuInxFF : NesCpu :=
  { memory := memZero
    reg := { pc := 0x8000, sp := 0xFD, accumulator := 0, idx := 0xFF, idy := 0,
             flags := flagsClear }
    current := { op := .IncrementX, mode := .Implied } }

/-- Claim C1: decoding the byte produced by encoding a supported pair
recovers the same pair.  This fails on the code: the encoder maps
(TransferXToAccumulator, Immediate) to 0x8A but the decoder maps 0x8A to
(TransferXToAccumulator, Implied); likewise the encoder maps
(ShiftOneRight, Absolute) to 0x4E but the decoder maps 0x4E to
(ShiftOneRight, Accumulator). -/
theorem decode_encode_txa_immediate_mismatch :
    decode_instruction (encode_instructions .TransferXToAccumulator .Immediate)
      = (.TransferXToAccumulator, .Implied) ∧
    decode_instruction (encode_instructions .TransferXToAccumulator .Immediate)
      ≠ (.TransferXToAccumulator, .Immediate) ∧
    decode_instruction (encode_instructions .ShiftOneRight .Absolute)
      = (.ShiftOneRight, .Accumulator) := by
  refine ⟨rfl, by decide, rfl⟩

/-- Claim C2: a pop requested while SP = 0xFF must wrap rather than fault.
The code faults: pop_stack hits an explicit panic (modelled as none) for
every state whose stack pointer is 0xFF. -/
theorem pop_stack_sp_ff_faults (cpu : NesCpu) (h : cpu.reg.sp = 0xFF) :
    pop_stack cpu = none := by
  simp [pop_stack, h]

/-- Witness for pop_stack_sp_ff_faults at a concrete state. -/
theorem pop_stack_sp_ff_faults_witness : pop_stack cpuPop = none :=
  pop_stack_sp_ff_faults cpuPop rfl

/-- Claim C3: a taken branch adds the sign-extension of the offset byte to
PC + 2.  The code zero-extends instead: a taken BEQ at 0x8000 with offset
byte 0xFC lands at 0x80FE, not at the sign-extended target 0x7FFE. -/
theorem branch_zero_extends_offset :
    (branch cpuBeq).map (fun c => c.reg.pc) = some 0x80FE ∧
    (0x80FE : Nat) ≠ 0x7FFE := by
  refine ⟨rfl, by decide⟩

/-- Claim C4: SBC computes r = A + (op XOR 0xFF) + C, so with A = 5,
op = 3 and carry set the accumulator must become 2.  The code subtracts the
carry flag itself as the borrow and produces 1. -/
theorem sbc_subtracts_carry_not_negation :
    (subtract_accumulator_with_borrow cpuSbc).map (fun c => c.reg.accumulator)
      = some 1 ∧
    (5 + (3 ^^^ 0xFF) + 1) % 256 = 2 ∧
    (1 : Nat) ≠ 2 := by
  refine ⟨rfl, by decide, by decide⟩

/-- Claim C5: ADC sets V iff the sign of A equals the sign of the operand
and differs from the sign of the result.  With A = op = 0x50 and carry
clear that condition holds (result 0xA0), yet the code leaves V clear
because its first conjunct tests that the signs of A and op DIFFER. -/
theorem adc_overflow_flag_wrong :
    (add_mem_to_accumulator_with_carry cpuAdc).map
        (fun c => (c.reg.accumulator, c.reg.flags.overflow, c.reg.flags.carry))
      = some (0xA0, false, false) ∧
    (0x50 ^^^ 0x50) &&& 0x80 = 0 ∧
    (0x50 ^^^ 0xA0) &&& 0x80 ≠ 0 := by
  refine ⟨rfl, by decide, by decide⟩

/-- Claim C6: ROL shifts the pre-instruction carry into bit 0, so rotating
A = 0 with carry set must give 1.  The code ors in bit 7 of the input
instead of the old carry and gives 0. -/
theorem rol_ignores_carry_in :
    (rotate cpuRol).map (fun c => (c.reg.accumulator, c.reg.flags.carry))
      = some (0, false) ∧
    (0 : Nat) ≠ 1 := by
  refine ⟨rfl, by decide⟩

/-- Claim C7: JMP (indirect) with operand 0x02FF must set PC to the pointer
read from memory (0x1234 straight, 0x9934 under the hardware page-wrap
bug), never the hard-coded constant 0x0300.  The code jumps to 0x0300. -/
theorem jmp_indirect_hardcoded_0300 :
    (execute_jump_indirect cpuJmpInd).reg.pc = 0x300 ∧
    read_word cpuJmpInd.memory 0x2FF = 0x1234 ∧
    combine_bytes_to_u16 (read_byte cpuJmpInd.memory 0x200)
      (read_byte cpuJmpInd.memory 0x2FF) = 0x9934 ∧
    (0x300 : Nat) ≠ 0x1234 ∧
    (0x300 : Nat) ≠ 0x9934 := by
  refine ⟨rfl, rfl, rfl, by decide, by decide⟩

/-- Claim C8, counterexample: the register file created at reset does not
have SP = 0xFD; Registers::new sets it to 0xFF. -/
theorem reset_sp_not_fd : Registers.new.sp ≠ 0xFD := by decide

/-- Claim C8, amended: the register file created at reset has SP = 0xFF,
A = X = Y = 0, and flags with only interrupt-disable set. -/
theorem reset_register_file_values :
    Registers.new.sp = 0xFF ∧
    Registers.new.accumulator = 0 ∧
    Registers.new.idx = 0 ∧
    Registers.new.idy = 0 ∧
    Registers.new.flags =
      { carry := false, zero := false, interrupt_disable := true,
        decimal := false, overflow := false, negative := false } := by
  refine ⟨rfl, rfl, rfl, rfl, rfl⟩

/-- Claim C9: INX must set N from bit 7 of the new value and leave V
untouched.  The code never writes N (X: 0x7F to 0x80 leaves N clear even
though bit 7 is set) and spuriously sets V when X wraps to zero. -/
theorem inx_flag_updates_wrong :
    (increase_register cpuInx).map
        (fun c => (c.reg.idx, c.reg.flags.negative, c.reg.flags.zero))
      = some (0x80, false, false) ∧
    (0x80 : Nat) &&& 0x80 ≠ 0 ∧
    (increase_register cpuInxFF).map
        (fun c => (c.reg.idx, c.reg.flags.overflow))
      = some (0, true) := by
  refine ⟨rfl, by decide, rfl⟩

/-- Claim C10: a single stack push writes its byte at 0x0100 + SP, which
always lies inside the stack page 0x0100..=0x01FF, and modifies no other
memory address. -/
theorem push_stack_writes_only_stack_page (cpu : NesCpu) (data a : Nat)
    (hsp : cpu.reg.sp ≤ 255) (hdata : data ≤ 255) :
    0x100 ≤ 0x100 + cpu.reg.sp ∧ 0x100 + cpu.reg.sp ≤ 0x1FF ∧
    (push_stack cpu data).memory (0x100 + cpu.reg.sp) = data ∧
    (a ≠ 0x100 + cpu.reg.sp → (push_stack cpu data).memory a = cpu.memory a) := by
  have hmod : (0x100 + cpu.reg.sp) % 65536 = 0x100 + cpu.reg.sp :=
    Nat.mod_eq_of_lt (by omega)
  refine ⟨by omega, by omega, ?_, ?_⟩
  · show write_byte cpu.memory (0x100 + cpu.reg.sp) data (0x100 + cpu.reg.sp) = data
    unfold write_byte
    rw [if_neg (by omega), if_neg (by omega)]
    show (if (0x100 + cpu.reg.sp) = (0x100 + cpu.reg.sp) % 65536 then data % 256
          else cpu.memory (0x100 + cpu.reg.sp)) = data
    rw [hmod, if_pos rfl]
    omega
  · intro ha
    show write_byte cpu.memory (0x100 + cpu.reg.sp) data a = cpu.memory a
    unfold write_byte
    rw [if_neg (by omega), if_neg (by omega)]
    show (if a = (0x100 + cpu.reg.sp) % 65536 then data % 256 else cpu.memory a)
          = cpu.memory a
    rw [hmod]
    exact if_neg ha

/-- Witness for push_stack_writes_only_stack_page at a concrete state:
pushing 0x42 with SP = 0xFD writes 0x1FD and leaves address 5 alone. -/
theorem push_stack_writes_only_stack_page_witness :
    0x100 ≤ 0x100 + cpuPush.reg.sp ∧ 0x100 + cpuPush.reg.sp ≤ 0x1FF ∧
    (push_stack cpuPush 0x42).memory (0x100 + cpuPush.reg.sp) = 0x42 ∧
    (push_stack cpuPush 0x42).memory 5 = cpuPush.memory 5 := by
  have h := push_stack_writes_only_stack_page cpuPush 0x42 5 (by decide) (by decide)
  exact ⟨h.1, h.2.1, h.2.2.1, h.2.2.2 (by decide)⟩

end RustNes
